import Mathlib

/-!
Verification development for the mem0-cathedral-mcp server.

Part A embeds the shipped JavaScript server (`index.js`): its tool-call
dispatch, the request payloads it sends to the Mem0 HTTP API, and its
error handling. The external store is modelled as an oracle mapping a
request to either a parsed JSON response or a thrown error message, and
each handler run is paired with the list of store requests it issued.

Part B models the memory-quality pipeline (QualityGate, DuplicateDetector,
RecallReranker, ConsolidationScanner). That pipeline lives in `server.py`,
which the repository README references as the current entry point but which
is not part of the JavaScript source tree; those definitions are therefore
modelled from the specification text and are marked as such.
-/

/-- Parsed JSON values, as produced by `response.json()` and consumed by
`JSON.stringify` in `index.js`. Numbers are restricted to integers, which
covers every number the server itself puts into a payload (`top_k`). -/
inductive JValue where
  | jnull
  | jbool (b : Bool)
  | jnum (n : Int)
  | jstr (s : String)
  | jarr (xs : List JValue)
  | jobj (fields : List (String × JValue))

/-- Arguments of a tool call (`request.params.arguments`). A field is
`none` when the caller omitted it (JavaScript `undefined`). -/
structure ToolArgs where
  content : Option String := none
  userId : Option String := none
  query : Option String := none
  limit : Option Int := none
  memoryId : Option String := none
  text : Option String := none

/-- Fixed fallback user identifier (`const DEFAULT_USER_ID` in index.js). -/
def DEFAULT_USER_ID : String := "el-jefe-principal"

/-- JavaScript `v || dflt` on a string-or-undefined value: `undefined` and
the empty string are falsy, every other string is kept unchanged. -/
def jsOrDefaultStr (v : Option String) (dflt : String) : String :=
  match v with
  | none => dflt
  | some s => if s = "" then dflt else s

/-- JavaScript `v || dflt` on a number-or-undefined value: `undefined` and
`0` are falsy. Used for `args.limit || 100`. -/
def jsOrDefaultNum (v : Option Int) (dflt : Int) : Int :=
  match v with
  | none => dflt
  | some n => if n = 0 then dflt else n

/-- JavaScript template interpolation of a possibly-undefined value, as in
the URL template for `args.memoryId`: `undefined` renders as the string
"undefined". -/
def jsTemplateStr (v : Option String) : String :=
  match v with
  | none => "undefined"
  | some s => s

/-- A single optional JSON object entry: `JSON.stringify` drops object
fields whose value is `undefined`, so an absent argument produces no
field at all. -/
def jsObjField (name : String) (v : Option JValue) : List (String × JValue) :=
  match v with
  | none => []
  | some x => [(name, x)]

/-- An HTTP request issued to the Mem0 API: URL, method and JSON body. -/
structure StoreRequest where
  url : String
  method : String
  body : Option JValue

/-- The external Mem0 store, abstracted as an oracle: a request either
yields a parsed JSON response or throws an error message (as
`makeMem0Request` throws on a non-ok response, and `fetch` rejects on
network failure). -/
def Mem0Store : Type := StoreRequest → Except String JValue

/-- Body of the `add-memory` POST: a single user message built from
`args.content` plus the resolved `user_id` (index.js lines 193-198). -/
def addMemoryPayload (args : ToolArgs) : JValue :=
  .jobj ([("messages",
      .jarr [.jobj ([("role", .jstr "user")] ++
        jsObjField "content" (args.content.map JValue.jstr))])] ++
    [("user_id", .jstr (jsOrDefaultStr args.userId DEFAULT_USER_ID))])

/-- The store request issued by the `add-memory` case. -/
def addMemoryRequest (args : ToolArgs) : StoreRequest :=
  { url := "https://api.mem0.ai/v1/memories/"
    method := "POST"
    body := some (addMemoryPayload args) }

/-- Body of the `search-memories` v2 POST: query, fixed version marker,
user filter and `top_k` (index.js lines 234-242). -/
def searchPayload (args : ToolArgs) : JValue :=
  .jobj (jsObjField "query" (args.query.map JValue.jstr) ++
    [("version", .jstr "v2"),
     ("filters", .jobj [("user_id", .jstr (jsOrDefaultStr args.userId DEFAULT_USER_ID))]),
     ("top_k", .jnum (jsOrDefaultNum args.limit 100))])

/-- The store request issued by the `search-memories` case. -/
def searchMemoriesRequest (args : ToolArgs) : StoreRequest :=
  { url := "https://api.mem0.ai/v2/memories/search/"
    method := "POST"
    body := some (searchPayload args) }

/-- Body of the `update-memory` PUT (index.js lines 297-301). -/
def updateMemoryPayload (args : ToolArgs) : JValue :=
  .jobj (jsObjField "text" (args.text.map JValue.jstr) ++
    [("user_id", .jstr (jsOrDefaultStr args.userId DEFAULT_USER_ID))])

/-- The store request issued by the `update-memory` case. -/
def updateMemoryRequest (args : ToolArgs) : StoreRequest :=
  { url := "https://api.mem0.ai/v1/memories/" ++ jsTemplateStr args.memoryId ++ "/"
    method := "PUT"
    body := some (updateMemoryPayload args) }

/-- JavaScript truthiness of a parsed JSON value (`result && ...`). -/
def jsTruthy : JValue → Bool
  | .jnull => false
  | .jbool b => b
  | .jnum n => !(n == 0)
  | .jstr s => !(s == "")
  | .jarr _ => true
  | .jobj _ => true

/-- JavaScript `result.length > 0`: only arrays and strings have a numeric
`length`; on any other value `length` is `undefined` and the comparison is
false. -/
def jsLengthPos : JValue → Bool
  | .jarr xs => !xs.isEmpty
  | .jstr s => !(s == "")
  | _ => false

/-- JavaScript property access `v.name` on a parsed JSON value. -/
def jsGetField (name : String) : JValue → Option JValue
  | .jobj fs => fs.lookup name
  | _ => none

/-- JavaScript index access `v[i]` on a parsed JSON value. -/
def jsIndex (i : Nat) : JValue → Option JValue
  | .jarr xs => xs.get? i
  | _ => none

/-- Result returned to the tool caller: the object the handler passes to
`JSON.stringify`, plus the `isError` flag (absent means false). -/
structure ToolResult where
  body : JValue
  isError : Bool

/-- Extraction of the memories list in the `search-memories` case:
`result.results` when that is an array, else `result` itself when it is an
array, else the empty list (index.js lines 262-268). -/
def extractSearchResults (result : JValue) : List JValue :=
  match result with
  | .jobj _ =>
    match jsGetField "results" result with
    | some (JValue.jarr xs) => xs
    | _ => []
  | .jarr xs => xs
  | _ => []

/-- Names of the six tools registered by the server. -/
def knownToolNames : List String :=
  ["add-memory", "search-memories", "get-memory", "update-memory",
   "delete-memory", "get-memory-history"]

/-- Body of the `try` block of the CallToolRequestSchema handler: dispatch
on the tool name, issuing store requests and either returning a result or
throwing an error message. The first component records every store request
issued (a request is recorded even when the store then fails, since the
fetch was attempted). The default case throws `Unknown tool` without
contacting the store. -/
def runTool (name : String) (args : ToolArgs) (store : Mem0Store) :
    List StoreRequest × Except String ToolResult :=
  match name with
  | "add-memory" =>
    let req := addMemoryRequest args
    ([req],
      match store req with
      | .error e => .error e
      | .ok result =>
        if jsTruthy result && jsLengthPos result then
          .ok { body := .jobj ([("ok", .jbool true)] ++
                  jsObjField "memory_id" ((jsIndex 0 result).bind (jsGetField "id")) ++
                  [("message", .jstr "Memory added successfully")])
                isError := false }
        else
          .ok { body := .jobj [("ok", .jbool false),
                  ("error", .jstr "API returned an empty response, memory not created")]
                isError := false })
  | "search-memories" =>
    let req := searchMemoriesRequest args
    ([req],
      match store req with
      | .error e => .error e
      | .ok result =>
        .ok { body := .jobj [("memories", .jarr (extractSearchResults result)),
                ("count", .jnum (extractSearchResults result).length)]
              isError := false })
  | "get-memory" =>
    let req : StoreRequest :=
      { url := "https://api.mem0.ai/v1/memories/" ++ jsTemplateStr args.memoryId ++ "/"
        method := "GET", body := none }
    ([req],
      match store req with
      | .error e => .error e
      | .ok result => .ok { body := result, isError := false })
  | "update-memory" =>
    let req := updateMemoryRequest args
    ([req],
      match store req with
      | .error e => .error e
      | .ok result =>
        .ok { body := .jobj [("ok", .jbool true),
                ("message", .jstr "Memory updated successfully"),
                ("data", result)]
              isError := false })
  | "delete-memory" =>
    let req : StoreRequest :=
      { url := "https://api.mem0.ai/v1/memories/" ++ jsTemplateStr args.memoryId ++ "/"
        method := "DELETE", body := none }
    ([req],
      match store req with
      | .error e => .error e
      | .ok _ =>
        .ok { body := .jobj [("status", .jstr "success"),
                ("message", .jstr ("Memory " ++ jsTemplateStr args.memoryId ++
                  " has been deleted"))]
              isError := false })
  | "get-memory-history" =>
    let req : StoreRequest :=
      { url := "https://api.mem0.ai/v1/memories/" ++ jsTemplateStr args.memoryId ++ "/history/"
        method := "GET", body := none }
    ([req],
      match store req with
      | .error e => .error e
      | .ok result => .ok { body := result, isError := false })
  | _ => ([], .error ("Unknown tool: " ++ name))

/-- The structured error object produced by the catch block of the handler:
the thrown message plus the tool name, flagged `isError` (index.js lines
355-368). -/
def caughtErrorResult (msg toolName : String) : ToolResult :=
  { body := .jobj [("error", .jstr msg), ("tool", .jstr toolName)]
    isError := true }

/-- The full CallToolRequestSchema handler: run the dispatch and catch any
thrown error, turning it into a structured error result. Totality of this
function is the embedding of "the handler never propagates an exception to
the transport". -/
def handleToolCall (name : String) (args : ToolArgs) (store : Mem0Store) :
    List StoreRequest × ToolResult :=
  match runTool name args store with
  | (reqs, .ok r) => (reqs, r)
  | (reqs, .error msg) => (reqs, caughtErrorResult msg name)

/-- A store oracle that always answers with an empty JSON array, used as a
concrete collaborator in counterexamples. -/
def emptyStore : Mem0Store := fun _ => .ok (.jarr [])

/-- A store oracle that always fails with a fixed HTTP-level error message,
used as a concrete collaborator in witnesses. -/
def failingStore : Mem0Store := fun _ => .error "Mem0 API error (500): boom"

/-!
Part B: the memory-quality pipeline. The repository README names
`server.py` as the running entry point and documents QualityGate,
DuplicateDetector, ContextEnricher, RecallReranker and
ConsolidationScanner, but that file is absent from the JavaScript source
tree, so the definitions below are modelled from the specification text.
Text processing is carried out on `List Char` so that every function is
executable by kernel reduction.
-/

/-- Whitespace test used for tokenisation and trimming. -/
def isWsChar (c : Char) : Bool :=
  c = ' ' || c = '\t' || c = '\n' || c = '\r'

/-- Accumulator-based splitting of a character list into maximal
whitespace-free words; empty words are dropped. -/
def splitWordsAux : List Char → List Char → List (List Char)
  | [], acc => if acc.isEmpty then [] else [acc.reverse]
  | c :: cs, acc =>
    if isWsChar c then
      if acc.isEmpty then splitWordsAux cs []
      else acc.reverse :: splitWordsAux cs []
    else splitWordsAux cs (c :: acc)

/-- Modelled from the spec: whitespace-delimited tokenisation, the word
notion used by the QualityGate word count and by keyword extraction. -/
def splitWords (l : List Char) : List (List Char) :=
  splitWordsAux l []

/-- Character-wise lowercasing. -/
def lowerStr (l : List Char) : List Char :=
  l.map Char.toLower

/-- Trimming of leading and trailing whitespace. -/
def trimChars (l : List Char) : List Char :=
  ((l.dropWhile isWsChar).reverse.dropWhile isWsChar).reverse

/-- Substring test: does `pat` occur contiguously inside `hay`? -/
def containsSub (hay pat : List Char) : Bool :=
  match hay with
  | [] => pat.isEmpty
  | _ :: rest => pat.isPrefixOf hay || containsSub rest pat

/-- Modelled from the spec: the fixed set of low-value acknowledgment
phrases QualityGate rejects (matched exactly against the trimmed,
lowercased text, not as substrings). `server.py` is not in the source
tree; the list is the example list given in the spec. -/
def ackPhrases : List (List Char) :=
  ["ok".data, "thanks".data, "got it".data, "sure".data, "yes".data, "no".data]

/-- Modelled from the spec: preference-verb context indicators. -/
def preferenceIndicators : List (List Char) :=
  ["love".data, "hate".data, "prefer".data, "like".data, "dislike".data,
   "favorite".data]

/-- Modelled from the spec: technical-noun context indicators. -/
def technicalIndicators : List (List Char) :=
  ["python".data, "code".data, "api".data, "server".data, "database".data,
   "software".data]

/-- Modelled from the spec: personal-identity context indicators. -/
def identityIndicators : List (List Char) :=
  ["my name".data, "i am".data, "i work".data, "i live".data]

/-- Modelled from the spec: goal-phrase context indicators. -/
def goalIndicators : List (List Char) :=
  ["want to".data, "plan to".data, "goal".data, "trying to".data]

/-- Modelled from the spec: the four context-indicator categories; each
category contributes one bonus when any of its phrases occurs, once per
category rather than once per occurrence. -/
def indicatorCategories : List (String × List (List Char)) :=
  [("preference", preferenceIndicators),
   ("technical", technicalIndicators),
   ("identity", identityIndicators),
   ("goal", goalIndicators)]

/-- Names of the indicator categories matched by a lowercased text. -/
def matchedIndicators (low : List Char) : List String :=
  (indicatorCategories.filter
    (fun cat => cat.2.any (fun p => containsSub low p))).map (fun cat => cat.1)

/-- Modelled from the spec: QualityGate configuration (minimum character
length, minimum word count, soft upper length bound), with the
defaults. -/
structure QualityConfig where
  minLength : Nat := 20
  minWords : Nat := 4
  maxLength : Nat := 500

/-- Modelled from the spec: the verdict QualityGate produces for one
candidate: acceptance flag, numeric score, issue strings on rejection,
matched context indicators, the explicit forced marker, and the non-fatal
over-length warning. -/
structure QualityVerdict where
  accepted : Bool
  score : Int
  issues : List String
  indicators : List String
  forced : Bool
  warning : Bool

/-- Modelled from the spec (QualityGate.assess, absent `server.py`):
with the bypass flag the verdict is unconditional acceptance with score 0
and the forced marker; otherwise the text is rejected when shorter than
the configured minimum length, when it has fewer than the configured
minimum number of whitespace-delimited words, or when its trimmed
lowercased form equals one of the acknowledgment phrases. The score is a
base of 100 plus a fixed bonus of 20 per matched indicator category, and
an over-length warning is emitted without blocking acceptance. -/
def qualityAssess (cfg : QualityConfig) (text : String) (force : Bool) :
    QualityVerdict :=
  if force then
    { accepted := true, score := 0, issues := [], indicators := []
      forced := true, warning := false }
  else
    let chars := text.data
    let low := lowerStr chars
    let tooShort := chars.length < cfg.minLength
    let tooFewWords := (splitWords chars).length < cfg.minWords
    let ack := ackPhrases.contains (trimChars low)
    let inds := matchedIndicators low
    { accepted := !tooShort && !tooFewWords && !ack
      score := 100 + 20 * inds.length
      issues :=
        (if tooShort then ["Too short (min 20 chars)"] else []) ++
        (if tooFewWords then ["Too few words (min 4 words)"] else []) ++
        (if ack then ["Low-value acknowledgment"] else [])
      indicators := inds
      forced := false
      warning := cfg.maxLength < chars.length }

/-- A transient copy of a stored memory, as held for scoring. -/
structure MemoryRecord where
  id : String
  content : String

/-- Modelled from the spec: the set of lowercased words of a text, the
basis of the token-set overlap similarity. -/
def tokenSet (s : String) : Finset (List Char) :=
  (splitWords (lowerStr s.data)).toFinset

/-- Modelled from the spec (DuplicateDetector, absent `server.py`): the
token-set overlap ratio of two texts, the size of the intersection of
their word sets over the size of the union; two texts with no words at
all count as identical. -/
def similarity (a b : String) : ℚ :=
  if tokenSet a ∪ tokenSet b = ∅ then 1
  else ((tokenSet a ∩ tokenSet b).card : ℚ) / ((tokenSet a ∪ tokenSet b).card : ℚ)

/-- Modelled from the spec: write-time deduplication threshold. -/
def SIMILARITY_THRESHOLD : ℚ := 85 / 100

/-- Modelled from the spec: the verdict DuplicateDetector produces for a
candidate against the existing records. -/
structure DuplicateVerdict where
  isDuplicate : Bool
  score : ℚ
  matchedId : Option String

/-- Modelled from the spec (DuplicateDetector.checkDuplicate): the first
existing record whose similarity with the candidate reaches the threshold
marks the candidate a duplicate. -/
def checkDuplicate (candidate : String) (records : List MemoryRecord)
    (thr : ℚ) : DuplicateVerdict :=
  match records.find? (fun r => decide (thr ≤ similarity candidate r.content)) with
  | some r => { isDuplicate := true, score := similarity candidate r.content
                matchedId := some r.id }
  | none => { isDuplicate := false, score := 0, matchedId := none }

/-- Modelled from the spec: stop words dropped by keyword extraction
(articles, pronouns, common verbs with no topical content). -/
def stopWords : List (List Char) :=
  ["the".data, "a".data, "an".data, "i".data, "you".data, "he".data,
   "she".data, "it".data, "we".data, "they".data, "is".data, "are".data,
   "was".data, "were".data, "be".data, "been".data, "do".data, "does".data,
   "did".data, "have".data, "has".data, "had".data, "what".data,
   "should".data, "would".data, "could".data, "for".data, "my".data,
   "your".data, "me".data, "to".data, "of".data, "in".data, "on".data,
   "at".data, "this".data, "that".data, "and".data, "or".data, "but".data,
   "not".data, "with".data, "about".data, "really".data]

/-- Modelled from the spec: the combined query string, current message
first followed by the recent conversational turns. -/
def buildQuery (currentMessage : String) (recentMessages : List String) :
    String :=
  String.intercalate " " (currentMessage :: recentMessages)

/-- Modelled from the spec (RecallReranker keyword extraction): tokenize
the combined query, lowercase, drop stop words, deduplicate. -/
def extractKeywords (q : String) : List (List Char) :=
  ((splitWords (lowerStr q.data)).filter
    (fun w => !(stopWords.contains w))).dedup

/-- A candidate returned by the semantic search of the store: identifier,
content, optional category label and raw semantic score. -/
structure RecallCandidate where
  id : String
  content : String
  category : Option String
  score : ℚ

/-- Modelled from the spec: the design constant over-fetch factor; the
store is asked for `maxResults * OVER_FETCH` candidates. -/
def OVER_FETCH : Nat := 3

/-- Number of distinct extracted keywords occurring case-insensitively as
substrings of the content of a candidate. -/
def matchedKeywordCount (kws : List (List Char)) (c : RecallCandidate) : Nat :=
  (kws.dedup.filter (fun k => containsSub (lowerStr c.content.data) k)).length

/-- Modelled from the spec and usage notes: the lexical boost accumulated
over the keywords, 15 percent for each distinct keyword found in the
content. -/
def keywordBoost (kws : List (List Char)) (content : List Char) : ℚ :=
  kws.dedup.foldl
    (fun acc k => if containsSub content k then acc + 15 / 100 else acc) 0

/-- Modelled from the spec (RecallReranker): hybrid score of a candidate,
its raw semantic score scaled by one plus the accumulated keyword boost. -/
def hybridScore (kws : List (List Char)) (c : RecallCandidate) : ℚ :=
  c.score * (1 + keywordBoost kws (lowerStr c.content.data))

/-- Comparator of the rerank sort on semantically-ranked candidates
(original rank paired with the candidate): higher hybrid score first, and
on an exact score tie the earlier original semantic rank first. -/
def rerankLE (kws : List (List Char)) (a b : Nat × RecallCandidate) : Bool :=
  decide (hybridScore kws b.2 < hybridScore kws a.2) ||
    (decide (hybridScore kws a.2 = hybridScore kws b.2) && decide (a.1 ≤ b.1))

/-- Modelled from the spec: the full sorted candidate list, before
truncation, each candidate carrying its original semantic rank. -/
def rerankAll (kws : List (List Char)) (cands : List RecallCandidate) :
    List (Nat × RecallCandidate) :=
  (cands.enum).mergeSort (rerankLE kws)

/-- Modelled from the spec: the reranked list truncated to `maxResults`. -/
def rerankIndexed (kws : List (List Char)) (maxResults : Nat)
    (cands : List RecallCandidate) : List (Nat × RecallCandidate) :=
  (rerankAll kws cands).take maxResults

/-- Category label used for grouping, with the uncategorized bucket. -/
def categoryName : Option String → String
  | some c => c
  | none => "uncategorized"

/-- One rendered category group: heading plus bullet lines, in the order
the ranked list provides. -/
def formatGroup (ranked : List RecallCandidate) (cat : String) : String :=
  "### " ++ cat ++ "\n" ++
    String.join ((ranked.filter (fun c => categoryName c.category = cat)).map
      (fun c => "- " ++ c.content ++ "\n"))

/-- Modelled from the spec: the grouped human-readable context block. -/
def formatContext (ranked : List RecallCandidate) : String :=
  String.intercalate "\n"
    (((ranked.map (fun c => categoryName c.category)).dedup).map
      (formatGroup ranked))

/-- Output of a recall invocation: formatted context, the ranked surviving
memories and the pre-truncation candidate count. -/
structure RecallOutput where
  contextText : String
  rankedMemories : List RecallCandidate
  totalCandidatesSearched : Nat

/-- Modelled from the spec (RecallReranker.recall, absent `server.py`):
extract keywords from the combined query, rerank the candidates the store
returned by hybrid score, truncate, and format. -/
def recallContext (currentMessage : String) (recentMessages : List String)
    (maxResults : Nat) (candidates : List RecallCandidate) : RecallOutput :=
  let kws := extractKeywords (buildQuery currentMessage recentMessages)
  let ranked := (rerankIndexed kws maxResults candidates).map (fun p => p.2)
  { contextText := formatContext ranked
    rankedMemories := ranked
    totalCandidatesSearched := candidates.length }

/-- Modelled from the spec: consolidation surfacing threshold, lower than
the write-time deduplication threshold. -/
def CONSOLIDATION_THRESHOLD : ℚ := 75 / 100

/-- A pair of existing memories flagged for review: identifiers, contents
and similarity. -/
structure ConsolidationCandidate where
  id1 : String
  content1 : String
  id2 : String
  content2 : String
  score : ℚ

/-- Modelled from the spec: the quadratic index enumeration of the batch
comparison, every ordered position pair of the record list restricted to
the first index strictly below the second, which realises the required
symmetric-pair deduplication and self-comparison exclusion. -/
def consolidationIndexPairs (n : Nat) : List (Nat × Nat) :=
  ((List.range n).product (List.range n)).filter (fun p => decide (p.1 < p.2))

/-- Index pairs the batch comparison reports: those whose records reach
the surfacing threshold. -/
def reportedIndexPairs (records : List MemoryRecord) (thr : ℚ) :
    List (Nat × Nat) :=
  (consolidationIndexPairs records.length).filter
    (fun p =>
      match records.get? p.1, records.get? p.2 with
      | some a, some b => decide (thr ≤ similarity a.content b.content)
      | _, _ => false)

/-- Modelled from the spec (DuplicateDetector.findAllPairs, absent
`server.py`): the consolidation candidates built from the reported index
pairs. -/
def findAllPairs (records : List MemoryRecord) (thr : ℚ) :
    List ConsolidationCandidate :=
  (reportedIndexPairs records thr).filterMap
    (fun p =>
      match records.get? p.1, records.get? p.2 with
      | some a, some b =>
        some { id1 := a.id, content1 := a.content, id2 := b.id
               content2 := b.content
               score := similarity a.content b.content }
      | _, _ => none)

/-- Modelled from the spec (ConsolidationScanner.scan): candidates sorted
descending by similarity; the dry-run flag does not change the computed
report. -/
def consolidationScan (records : List MemoryRecord) (_dryRun : Bool) :
    List ConsolidationCandidate :=
  (findAllPairs records CONSOLIDATION_THRESHOLD).mergeSort
    (fun a b => decide (b.score ≤ a.score))

/-!
Theorems. Helper lemmas come first, then one theorem per claim, each with
its witness or counterexample where required.
-/

theorem similarity_symm (a b : String) : similarity a b = similarity b a := by
  unfold similarity
  rw [Finset.union_comm (tokenSet a) (tokenSet b),
    Finset.inter_comm (tokenSet a) (tokenSet b)]

theorem similarity_nonneg (a b : String) : 0 ≤ similarity a b := by
  unfold similarity
  split
  · exact zero_le_one
  · positivity

theorem similarity_le_one (a b : String) : similarity a b ≤ 1 := by
  unfold similarity
  split
  · exact le_refl 1
  · rename_i h
    have hpos : 0 < ((tokenSet a ∪ tokenSet b).card : ℚ) := by
      have := Finset.card_pos.mpr (Finset.nonempty_iff_ne_empty.mpr h)
      exact_mod_cast this
    rw [div_le_one hpos]
    exact_mod_cast Finset.card_le_card
      (Finset.inter_subset_left.trans Finset.subset_union_left)

/-- C5: the DuplicateDetector similarity measure is symmetric and its
value always lies in the closed interval from 0 to 1. -/
theorem similarity_symmetric_and_bounded (a b : String) :
    similarity a b = similarity b a ∧
    0 ≤ similarity a b ∧ similarity a b ≤ 1 :=
  ⟨similarity_symm a b, similarity_nonneg a b, similarity_le_one a b⟩

/-- C3: any text meeting the configured minimum length and minimum word
count that is not an acknowledgment phrase is accepted by QualityGate. -/
theorem qualityGate_accepts_good_text (cfg : QualityConfig) (t : String)
    (hlen : cfg.minLength ≤ t.length)
    (hwords : cfg.minWords ≤ (splitWords t.data).length)
    (hack : ackPhrases.contains (trimChars (lowerStr t.data)) = false) :
    (qualityAssess cfg t false).accepted = true := by
  have h1 : decide (t.data.length < cfg.minLength) = false := by
    simpa [Nat.not_lt] using hlen
  have h2 : decide ((splitWords t.data).length < cfg.minWords) = false := by
    simpa [Nat.not_lt] using hwords
  simp [qualityAssess, h1, h2, hack]
  exact ⟨hlen, by simpa using hack⟩

theorem qualityGate_accepts_good_text_witness :
    ({} : QualityConfig).minLength ≤
      ("I absolutely love pizza but hate pineapple on it").length ∧
    (qualityAssess {} "I absolutely love pizza but hate pineapple on it"
      false).accepted = true :=
  ⟨by decide,
    qualityGate_accepts_good_text {}
      "I absolutely love pizza but hate pineapple on it"
      (by decide) (by decide) (by decide)⟩

/-- C4: the bypass flag yields unconditional acceptance with score 0 and
the explicit forced marker, whatever the text. -/
theorem qualityGate_bypass_accepts (cfg : QualityConfig) (t : String) :
    (qualityAssess cfg t true).accepted = true ∧
    (qualityAssess cfg t true).score = 0 ∧
    (qualityAssess cfg t true).forced = true :=
  ⟨rfl, rfl, rfl⟩

theorem keywordBoost_foldl (p : List Char → Bool) (c : ℚ) :
    ∀ (l : List (List Char)) (acc : ℚ),
      l.foldl (fun a k => if p k then a + c else a) acc =
        acc + c * ((l.filter p).length : ℚ) := by
  intro l
  induction l with
  | nil => intro acc; simp
  | cons k rest ih =>
    intro acc
    by_cases h : p k
    · simp only [List.foldl_cons, List.filter_cons, h, if_pos, ih, List.length_cons]
      push_cast
      ring
    · simp [h, ih]

theorem keywordBoost_eq_count (kws : List (List Char)) (c : RecallCandidate) :
    keywordBoost kws (lowerStr c.content.data) =
      (15 / 100 : ℚ) * (matchedKeywordCount kws c : ℚ) := by
  unfold keywordBoost matchedKeywordCount
  rw [keywordBoost_foldl]
  ring

/-- C6: the hybrid score equals the semantic score multiplied by one plus
0.15 times the number of distinct matched keywords, and with zero matches
it equals the raw semantic score exactly. -/
theorem hybridScore_formula (kws : List (List Char)) (c : RecallCandidate) :
    hybridScore kws c =
      c.score * (1 + (15 / 100 : ℚ) * (matchedKeywordCount kws c : ℚ)) ∧
    (matchedKeywordCount kws c = 0 → hybridScore kws c = c.score) := by
  have hb := keywordBoost_eq_count kws c
  constructor
  · unfold hybridScore
    rw [hb]
  · intro h0
    unfold hybridScore
    rw [hb, h0]
    push_cast
    ring

theorem hybridScore_formula_witness :
    matchedKeywordCount
      (extractKeywords (buildQuery "What should I eat for dinner tonight?"
        ["I am really hungry"]))
      { id := "m5", content := "User lives in Chicago", category := none
        score := 9 / 10 } = 0 ∧
    hybridScore
      (extractKeywords (buildQuery "What should I eat for dinner tonight?"
        ["I am really hungry"]))
      { id := "m5", content := "User lives in Chicago", category := none
        score := 9 / 10 } = (9 / 10 : ℚ) :=
  ⟨by decide, (hybridScore_formula _ _).2 (by decide)⟩

/-- C1 counterexample: the content "ok" is rejected by the quality gate,
yet the js add-memory handler issues the mutating POST to the store
unconditionally — no QualityGate or DuplicateDetector check precedes the
write. -/
theorem addMemory_mutates_despite_rejected_quality :
    (qualityAssess {} "ok" false).accepted = false ∧
    (handleToolCall "add-memory" { content := some "ok" } emptyStore).1 =
      [addMemoryRequest { content := some "ok" }] ∧
    ((handleToolCall "add-memory" { content := some "ok" } emptyStore).1.map
      (fun r => r.method)) = ["POST"] :=
  ⟨by decide, rfl, rfl⟩

theorem handleToolCall_fst (name : String) (args : ToolArgs)
    (store : Mem0Store) :
    (handleToolCall name args store).1 = (runTool name args store).1 := by
  unfold handleToolCall
  rcases hr : runTool name args store with ⟨reqs, r⟩
  cases r <;> rfl

/-- C1 (amended): the js add-memory write path is ungated — every
invocation issues exactly the one store write request, for every argument
record and every store behaviour. -/
theorem addMemory_always_writes (args : ToolArgs) (store : Mem0Store) :
    (handleToolCall "add-memory" args store).1 = [addMemoryRequest args] := by
  rw [handleToolCall_fst]
  rfl

/-- C2 counterexample: with the required field missing (content for
add-memory, query for search-memories) the handler does not fail with an
invalid-argument error; it contacts the store anyway and returns a
non-error result. -/
theorem missing_required_field_still_contacts_store :
    ({} : ToolArgs).content = none ∧
    ({} : ToolArgs).query = none ∧
    (handleToolCall "add-memory" {} emptyStore).1 = [addMemoryRequest {}] ∧
    (handleToolCall "search-memories" {} emptyStore).1 =
      [searchMemoriesRequest {}] ∧
    (handleToolCall "add-memory" {} emptyStore).2.isError = false ∧
    (handleToolCall "search-memories" {} emptyStore).2.isError = false :=
  ⟨rfl, rfl, rfl, rfl, rfl, rfl⟩

/-- C2 (amended): the handlers perform no required-field validation: for
every argument record, including one whose required field is absent, the
add-memory and search-memories cases issue their store request (the absent
field is simply dropped from the JSON payload). -/
theorem handlers_never_validate_required_fields (args : ToolArgs)
    (store : Mem0Store) :
    (handleToolCall "add-memory" args store).1 = [addMemoryRequest args] ∧
    (handleToolCall "search-memories" args store).1 =
      [searchMemoriesRequest args] := by
  refine ⟨?_, ?_⟩ <;> rw [handleToolCall_fst] <;> rfl

/-- C9 counterexample: a caller-supplied empty-string userId is not used
unchanged — JavaScript `||` treats it as falsy and the payload carries the
default identifier instead. -/
theorem userId_empty_string_not_used_unchanged :
    jsGetField "user_id"
      (addMemoryPayload { content := some "x", userId := some "" }) =
      some (.jstr DEFAULT_USER_ID) ∧
    DEFAULT_USER_ID ≠ "" :=
  ⟨rfl, by decide⟩

/-- C9 (amended): when userId is omitted the default identifier
el-jefe-principal is sent to the store for add-memory, search-memories and
update-memory; a caller-supplied non-empty userId is used unchanged (an
empty string falls back to the default, per the counterexample). -/
theorem userId_defaulting (args : ToolArgs) :
    (args.userId = none →
      jsGetField "user_id" (addMemoryPayload args) =
        some (.jstr DEFAULT_USER_ID) ∧
      ((jsGetField "filters" (searchPayload args)).bind
        (jsGetField "user_id")) = some (.jstr DEFAULT_USER_ID) ∧
      jsGetField "user_id" (updateMemoryPayload args) =
        some (.jstr DEFAULT_USER_ID)) ∧
    (∀ s, args.userId = some s → s ≠ "" →
      jsGetField "user_id" (addMemoryPayload args) = some (.jstr s) ∧
      ((jsGetField "filters" (searchPayload args)).bind
        (jsGetField "user_id")) = some (.jstr s) ∧
      jsGetField "user_id" (updateMemoryPayload args) = some (.jstr s)) := by
  constructor
  · intro h
    refine ⟨?_, ?_, ?_⟩
    · simp [addMemoryPayload, jsGetField, jsOrDefaultStr, h, List.lookup]
    · cases hq : args.query <;>
        simp [searchPayload, jsGetField, jsObjField, jsOrDefaultStr, h, hq,
          List.lookup]
    · cases ht : args.text <;>
        simp [updateMemoryPayload, jsGetField, jsObjField, jsOrDefaultStr, h,
          ht, List.lookup]
  · intro s hs hne
    refine ⟨?_, ?_, ?_⟩
    · simp [addMemoryPayload, jsGetField, jsOrDefaultStr, hs, hne, List.lookup]
    · cases hq : args.query <;>
        simp [searchPayload, jsGetField, jsObjField, jsOrDefaultStr, hs, hne,
          hq, List.lookup]
    · cases ht : args.text <;>
        simp [updateMemoryPayload, jsGetField, jsObjField, jsOrDefaultStr, hs,
          hne, ht, List.lookup]

theorem userId_defaulting_witness :
    (({ content := some "x" } : ToolArgs).userId = none ∧
      jsGetField "user_id" (addMemoryPayload { content := some "x" }) =
        some (.jstr DEFAULT_USER_ID)) ∧
    (({ content := some "x", userId := some "alice" } : ToolArgs).userId =
        some "alice" ∧
      ("alice" : String) ≠ "" ∧
      jsGetField "user_id"
        (addMemoryPayload { content := some "x", userId := some "alice" }) =
        some (.jstr "alice")) :=
  ⟨⟨rfl, ((userId_defaulting { content := some "x" }).1 rfl).1⟩,
   ⟨rfl, by decide,
     ((userId_defaulting { content := some "x", userId := some "alice" }).2
       "alice" rfl (by decide)).1⟩⟩

/-- C10: every error thrown during handling is caught and returned as a
structured result carrying the message and the tool name with isError set
(the handler itself is a total function, so no exception reaches the
transport): a thrown dispatch error always becomes the structured catch
result, an unknown tool name throws without contacting the store, and a
store failure on any known tool surfaces as the structured catch result. -/
theorem handler_catches_all_errors (name : String) (args : ToolArgs)
    (store : Mem0Store) :
    (∀ tr m, runTool name args store = (tr, .error m) →
      handleToolCall name args store = (tr, caughtErrorResult m name)) ∧
    (name ∉ knownToolNames →
      runTool name args store = ([], .error ("Unknown tool: " ++ name))) ∧
    (∀ m, (∀ req, store req = .error m) → name ∈ knownToolNames →
      (handleToolCall name args store).2 = caughtErrorResult m name) := by
  refine ⟨?_, ?_, ?_⟩
  · intro tr m h
    unfold handleToolCall
    rw [h]
  · intro hn
    unfold runTool
    split
    · exact absurd (by simp [knownToolNames]) hn
    · exact absurd (by simp [knownToolNames]) hn
    · exact absurd (by simp [knownToolNames]) hn
    · exact absurd (by simp [knownToolNames]) hn
    · exact absurd (by simp [knownToolNames]) hn
    · exact absurd (by simp [knownToolNames]) hn
    · rfl
  · intro m hm hmem
    simp only [knownToolNames, List.mem_cons, List.mem_singleton,
      List.not_mem_nil, or_false] at hmem
    rcases hmem with rfl | rfl | rfl | rfl | rfl | rfl <;>
      simp [handleToolCall, runTool, hm, caughtErrorResult]

theorem handler_catches_all_errors_witness :
    (runTool "bogus" {} emptyStore =
        ([], .error ("Unknown tool: " ++ "bogus")) ∧
      handleToolCall "bogus" {} emptyStore =
        ([], caughtErrorResult ("Unknown tool: " ++ "bogus") "bogus")) ∧
    (("bogus" : String) ∉ knownToolNames) ∧
    (("add-memory" : String) ∈ knownToolNames ∧
      (handleToolCall "add-memory" {} failingStore).2 =
        caughtErrorResult "Mem0 API error (500): boom" "add-memory") :=
  ⟨⟨(handler_catches_all_errors "bogus" {} emptyStore).2.1 (by decide),
    (handler_catches_all_errors "bogus" {} emptyStore).1 [] _
      ((handler_catches_all_errors "bogus" {} emptyStore).2.1 (by decide))⟩,
   by decide,
   ⟨by decide,
    (handler_catches_all_errors "add-memory" {} failingStore).2.2
      "Mem0 API error (500): boom" (fun _ => rfl) (by decide)⟩⟩

theorem rerankLE_trans (kws : List (List Char)) (a b c : Nat × RecallCandidate)
    (hab : rerankLE kws a b = true) (hbc : rerankLE kws b c = true) :
    rerankLE kws a c = true := by
  simp only [rerankLE, Bool.or_eq_true, Bool.and_eq_true,
    decide_eq_true_eq] at hab hbc ⊢
  rcases hab with h1 | ⟨h1, h2⟩
  · rcases hbc with h3 | ⟨h3, h4⟩
    · exact Or.inl (lt_trans h3 h1)
    · exact Or.inl (by rw [← h3]; exact h1)
  · rcases hbc with h3 | ⟨h3, h4⟩
    · exact Or.inl (by rw [h1]; exact h3)
    · exact Or.inr ⟨h1.trans h3, le_trans h2 h4⟩

theorem rerankLE_total (kws : List (List Char)) (a b : Nat × RecallCandidate) :
    (rerankLE kws a b || rerankLE kws b a) = true := by
  simp only [rerankLE, Bool.or_eq_true, Bool.and_eq_true, decide_eq_true_eq]
  rcases lt_trichotomy (hybridScore kws a.2) (hybridScore kws b.2) with h | h | h
  · exact Or.inr (Or.inl h)
  · rcases Nat.le_total a.1 b.1 with hn | hn
    · exact Or.inl (Or.inr ⟨h, hn⟩)
    · exact Or.inr (Or.inr ⟨h.symm, hn⟩)
  · exact Or.inl (Or.inl h)

theorem rerankLE_strict_of_ne (kws : List (List Char))
    (a b : Nat × RecallCandidate) (h1 : rerankLE kws a b = true)
    (h2 : a.1 ≠ b.1) :
    hybridScore kws b.2 < hybridScore kws a.2 ∨
      (hybridScore kws a.2 = hybridScore kws b.2 ∧ a.1 < b.1) := by
  simp only [rerankLE, Bool.or_eq_true, Bool.and_eq_true,
    decide_eq_true_eq] at h1
  rcases h1 with h1 | ⟨h1, h3⟩
  · exact Or.inl h1
  · exact Or.inr ⟨h1, lt_of_le_of_ne h3 h2⟩

theorem rerankLE_score_le (kws : List (List Char))
    (a b : Nat × RecallCandidate) (h : rerankLE kws a b = true) :
    hybridScore kws b.2 ≤ hybridScore kws a.2 := by
  simp only [rerankLE, Bool.or_eq_true, Bool.and_eq_true,
    decide_eq_true_eq] at h
  rcases h with h | ⟨h, hn⟩
  · exact le_of_lt h
  · exact le_of_eq h.symm

theorem rerankAll_sorted (kws : List (List Char))
    (cands : List RecallCandidate) :
    (rerankAll kws cands).Pairwise (fun a b => rerankLE kws a b = true) :=
  List.sorted_mergeSort
    (fun a b c hab hbc => rerankLE_trans kws a b c hab hbc)
    (fun a b => rerankLE_total kws a b) cands.enum

theorem rerankAll_fst_ne (kws : List (List Char))
    (cands : List RecallCandidate) :
    (rerankAll kws cands).Pairwise (fun a b => a.1 ≠ b.1) := by
  have h0 : (cands.enum).Pairwise (fun a b => a.1 ≠ b.1) := by
    have h := List.nodup_range cands.length
    rw [← List.enum_map_fst] at h
    exact List.pairwise_map.mp h
  exact ((List.mergeSort_perm cands.enum (rerankLE kws)).pairwise_iff
    (fun h => h.symm)).mpr h0

/-- C7: the recall reranker returns at most maxResults items, its returned
list is the maxResults-prefix of the full sorted list, which is descending
in hybrid score; within the returned list ordering is strictly descending
by hybrid score with exact ties broken by the earlier original semantic
rank, so no returned item scores below any truncated one. -/
theorem recallReranker_bounded_sorted (cur : String) (recent : List String)
    (m : Nat) (cands : List RecallCandidate) :
    (recallContext cur recent m cands).rankedMemories =
      (rerankIndexed (extractKeywords (buildQuery cur recent)) m cands).map
        (fun p => p.2) ∧
    (recallContext cur recent m cands).rankedMemories.length ≤ m ∧
    (rerankIndexed (extractKeywords (buildQuery cur recent)) m cands).Pairwise
      (fun a b =>
        hybridScore (extractKeywords (buildQuery cur recent)) b.2 <
            hybridScore (extractKeywords (buildQuery cur recent)) a.2 ∨
          (hybridScore (extractKeywords (buildQuery cur recent)) a.2 =
              hybridScore (extractKeywords (buildQuery cur recent)) b.2 ∧
            a.1 < b.1)) ∧
    rerankIndexed (extractKeywords (buildQuery cur recent)) m cands =
      (rerankAll (extractKeywords (buildQuery cur recent)) cands).take m ∧
    (rerankAll (extractKeywords (buildQuery cur recent)) cands).Pairwise
      (fun a b =>
        hybridScore (extractKeywords (buildQuery cur recent)) b.2 ≤
          hybridScore (extractKeywords (buildQuery cur recent)) a.2) := by
  refine ⟨rfl, ?_, ?_, rfl, ?_⟩
  · show ((rerankIndexed _ m cands).map _).length ≤ m
    rw [List.length_map]
    exact List.length_take_le m _
  · refine List.Pairwise.sublist (List.take_sublist m _) ?_
    refine List.Pairwise.imp ?_
      ((rerankAll_sorted (extractKeywords (buildQuery cur recent)) cands).and
        (rerankAll_fst_ne (extractKeywords (buildQuery cur recent)) cands))
    intro a b h
    exact rerankLE_strict_of_ne _ a b h.1 h.2
  · refine List.Pairwise.imp ?_
      (rerankAll_sorted (extractKeywords (buildQuery cur recent)) cands)
    intro a b h
    exact rerankLE_score_le _ a b h

/-- C8: the batch pair comparison behind ConsolidationScanner reports only
index pairs with the first position strictly below the second (so never a
record paired with itself), and its report list contains no pair twice and
never both an ordered pair and its swap. -/
theorem consolidation_pairs_unique (records : List MemoryRecord) (thr : ℚ) :
    ((reportedIndexPairs records thr).all
      (fun p => decide (p.1 < p.2)) = true) ∧
    (reportedIndexPairs records thr).Pairwise
      (fun p q => p ≠ q ∧ p ≠ (q.2, q.1)) := by
  have hsub : ∀ p ∈ reportedIndexPairs records thr, p.1 < p.2 := by
    intro p hp
    have hp2 := List.mem_filter.mp hp
    have hp3 := List.mem_filter.mp hp2.1
    exact of_decide_eq_true hp3.2
  have hnd : (reportedIndexPairs records thr).Nodup :=
    (((List.nodup_range records.length).product
      (List.nodup_range records.length)).filter _).filter _
  constructor
  · rw [List.all_eq_true]
    intro p hp
    exact decide_eq_true (hsub p hp)
  · refine List.Pairwise.imp_of_mem ?_ hnd
    intro a b ha hb hne
    refine ⟨hne, ?_⟩
    intro heq
    have hab := hsub a ha
    have hbb := hsub b hb
    rw [heq] at hab
    simp only at hab
    omega
